import Mathlib

/-!
Shallow embedding of the AquaAdvisor vegetation-stress / irrigation decision
engine (Python backend) and proofs about its specified properties.

Conventions of the embedding:
* numpy arrays become `List (List ℚ)` (grids) or `List ℚ`; elementwise numpy
  operations become `List.zipWith` / `List.map`;
* Python floats become `ℚ` (or `ℝ` where `math.sqrt` is involved);
* the financial calculator's reported dict applies the source's `int(...)`
  and `round(x, 1)` coercions faithfully (`truncInt` / `pythonRound`
  below), since its properties concern the reported values; in the other
  components the `round(x, k)` display rounding of returned numbers is
  omitted and the embedding carries the exact computed values (it is
  irrelevant to the properties proved there and is noted per structure);
* Python dicts with fixed keys become structures; `dict.get(k, default)`
  on optional inputs becomes a total field holding the defaulted value;
* `None` / fallible lookups become `Option`;
* `np.mean` of an empty list is NaN in Python; it is modelled as `none`.
-/

/-- The NDVI classification thresholds from `config.py` (`NDVI_CRITICAL`). -/
def NDVI_CRITICAL : ℚ := 0.3

/-- `config.NDVI_HIGH_STRESS`. -/
def NDVI_HIGH_STRESS : ℚ := 0.5

/-- `config.NDVI_MODERATE`. -/
def NDVI_MODERATE : ℚ := 0.6

namespace NDVIProcessor

/-- One cell of `NDVIProcessor.calculate_ndvi` (`ndvi_processor.py`, lines
22-32): the denominator `nir + red` is replaced by 1 where it is zero, then
`(nir - red) / denominator` is computed and clipped (`np.clip`) to `[-1, 1]`.
`np.clip x lo hi = min (max x lo) hi`. -/
def ndviCell (red nir : ℚ) : ℚ :=
  let denominator := nir + red
  let denominator := if denominator = 0 then 1 else denominator
  min (max ((nir - red) / denominator) (-1)) 1

/-- `NDVIProcessor.calculate_ndvi`: elementwise over the two band grids. -/
def calculate_ndvi (red nir : List (List ℚ)) : List (List ℚ) :=
  List.zipWith (fun rrow nrow => List.zipWith ndviCell rrow nrow) red nir

end NDVIProcessor

namespace StressAnalyzer

/-- One cell of `StressAnalyzer.detect_stress_zones` (`stress_analyzer.py`,
lines 37-41).  The numpy version initialises the zone to 0 and then applies
four mask assignments in order; the last assignment whose mask holds wins. -/
def zoneCell (ct ht mt v : ℚ) : ℕ :=
  let z : ℕ := 0
  let z := if v < ct then 0 else z
  let z := if ct ≤ v ∧ v < ht then 1 else z
  let z := if ht ≤ v ∧ v < mt then 2 else z
  if mt ≤ v then 3 else z

/-- `StressAnalyzer.detect_stress_zones`: the optional weather dict is
modelled by its optional `rainfall` entry; when rainfall `> 20` the three
thresholds are scaled by 0.8 / 0.85 / 0.9. -/
def detect_stress_zones (ndvi : List (List ℚ)) (rainfall : Option ℚ) :
    List (List ℕ) :=
  let adjust : Bool := match rainfall with
    | some r => r > 20
    | none => false
  let ct := if adjust then NDVI_CRITICAL * 0.8 else NDVI_CRITICAL
  let ht := if adjust then NDVI_HIGH_STRESS * 0.85 else NDVI_HIGH_STRESS
  let mt := if adjust then NDVI_MODERATE * 0.9 else NDVI_MODERATE
  ndvi.map (fun row => row.map (zoneCell ct ht mt))

/-- One entry of the dict built by `calculate_zone_statistics`. -/
structure ZoneStat where
  percentage : ℚ
  mean_ndvi : ℚ
  color : String
deriving DecidableEq

/-- The per-zone statistics for zone code `i` (`stress_analyzer.py`, lines
56-75): `zone_pixels = np.sum(zones == i)`, percentage over all pixels, and
the mean NDVI over the masked cells, defined as 0 when the zone is empty. -/
def zoneStatFor (zones : List (List ℕ)) (ndvi : List (List ℚ)) (i : ℕ) :
    ZoneStat :=
  let total_pixels := zones.flatten.length
  let zone_pixels := zones.flatten.countP (· == i)
  let zone_percentage := ((zone_pixels : ℚ) / (total_pixels : ℚ)) * 100
  let selected := ((zones.flatten.zip ndvi.flatten).filter
    (fun p => p.1 == i)).map Prod.snd
  let zone_ndvi_mean := if zone_pixels > 0 then selected.sum / (selected.length : ℚ)
    else 0
  { percentage := zone_percentage
    mean_ndvi := zone_ndvi_mean
    color := ["red", "orange", "yellow", "green"].getD i "" }

/-- `StressAnalyzer.calculate_zone_statistics`: the loop
`for i, name in enumerate(zone_names)` over the four fixed categories. -/
def calculate_zone_statistics (zones : List (List ℕ)) (ndvi : List (List ℚ)) :
    List (String × ZoneStat) :=
  (List.range 4).map (fun i =>
    (["Critical", "High", "Moderate", "Healthy"].getD i "",
      zoneStatFor zones ndvi i))

end StressAnalyzer

/-- The zone-statistics input dict as consumed by `assess_water_deficit`,
`generate_recommendations` and `calculate_roi`: for each of the four
categories the cell percentage, read with
`zone_stats.get(name, {}).get('percentage', 0)` (missing keys default to 0,
modelled as total fields holding the defaulted value). -/
structure ZoneStats where
  critical : ℚ := 0
  high : ℚ := 0
  moderate : ℚ := 0
  healthy : ℚ := 0
deriving DecidableEq

namespace WeatherService

/-- `WeatherService.calculate_et0` (`weather_service.py`, lines 77-95):
Hargreaves approximation `0.0023 * (T + 17.8) * sqrt(T) * 5`, then
`max(0, et0)`.  For a negative temperature `math.sqrt` raises `ValueError`,
which the `except` handler turns into the default return value 5.0. -/
noncomputable def calculate_et0 (temperature : ℝ) : ℝ :=
  if temperature < 0 then 5
  else max 0 (0.0023 * (temperature + 17.8) * Real.sqrt temperature * 5)

/-- The water-deficit assessment dict returned by `assess_water_deficit`
(the `round(x, 1)` display rounding of the returned numbers is omitted;
`status` is computed from the unrounded deficit in the code as well). -/
structure WaterDeficitAssessment where
  deficit_mm : ℚ
  status : String
  et0_weekly : ℚ
  rainfall : ℚ
deriving DecidableEq

/-- `WeatherService.assess_water_deficit` (`weather_service.py`, lines
97-158), parameterised on the daily ET0 and estimated rainfall exactly as in
the spec signature `assess_deficit(et0Daily, rainfallMm, meanIndex?,
zoneStats?)`: the code obtains `et0_daily` from `calculate_et0` and
`rainfall` from a random estimator (external I/O, out of the numeric core).
The stress scaling branch runs only when BOTH `ndvi_mean` and `zone_stats`
are not `None`. -/
def assess_water_deficit (et0_daily rainfall : ℚ) (ndvi_mean : Option ℚ)
    (zone_stats : Option ZoneStats) : WaterDeficitAssessment :=
  let et0_weekly := et0_daily * 7
  let base_deficit := et0_weekly - rainfall
  let deficit :=
    match ndvi_mean, zone_stats with
    | some m, some zs =>
      let critical_pct := zs.critical / 100
      let high_pct := zs.high / 100
      let moderate_pct := zs.moderate / 100
      let stress_factor :=
        1 + critical_pct * 0.8 + high_pct * 0.5 + moderate_pct * 0.2
      let d := base_deficit * stress_factor
      if m < 0.3 then d * 1.5 else if m < 0.5 then d * 1.2 else d
    | _, _ => base_deficit
  let deficit := max deficit 10
  { deficit_mm := deficit
    status :=
      if deficit > 40 then "High"
      else if deficit > 25 then "Moderate"
      else "Low"
    et0_weekly := et0_weekly
    rainfall := rainfall }

end WeatherService

namespace CropDatabase

/-- One crop record of `CropDatabase.CROPS` (`crop_database.py`). -/
structure Crop where
  name : String
  optimal_ndvi_min : ℚ
  optimal_ndvi_max : ℚ
  water_need_mm_per_week : ℚ
  critical_growth_stages : List String
  stress_tolerance : String
  price_per_quintal : ℚ
  typical_yield_quintal_per_ha : ℚ
  water_multiplier : ℚ
  drought_sensitivity : ℚ
deriving DecidableEq

/-- The static crop table `CropDatabase.CROPS` (`crop_database.py`, lines
9-114), keyed by the lowercase crop identifier. -/
def CROPS : List (String × Crop) :=
  [("rice",
    { name := "Rice", optimal_ndvi_min := 0.6, optimal_ndvi_max := 0.85,
      water_need_mm_per_week := 50,
      critical_growth_stages := ["Transplanting (0-20 days)",
        "Tillering (21-45 days)", "Panicle Initiation (46-65 days)",
        "Flowering (66-85 days)", "Grain Filling (86-115 days)"],
      stress_tolerance := "low", price_per_quintal := 2000,
      typical_yield_quintal_per_ha := 45, water_multiplier := 1.5,
      drought_sensitivity := 0.9 }),
   ("wheat",
    { name := "Wheat", optimal_ndvi_min := 0.55, optimal_ndvi_max := 0.80,
      water_need_mm_per_week := 35,
      critical_growth_stages := ["Germination (0-10 days)",
        "Crown Root Initiation (11-21 days)", "Tillering (22-60 days)",
        "Jointing (61-90 days)", "Heading/Flowering (91-110 days)",
        "Grain Filling (111-130 days)"],
      stress_tolerance := "medium", price_per_quintal := 2100,
      typical_yield_quintal_per_ha := 42, water_multiplier := 1.0,
      drought_sensitivity := 0.6 }),
   ("cotton",
    { name := "Cotton", optimal_ndvi_min := 0.50, optimal_ndvi_max := 0.75,
      water_need_mm_per_week := 40,
      critical_growth_stages := ["Germination (0-15 days)",
        "Seedling (16-35 days)", "Squaring (36-60 days)",
        "Flowering (61-95 days)", "Boll Development (96-140 days)",
        "Maturity (141-180 days)"],
      stress_tolerance := "medium-high", price_per_quintal := 6000,
      typical_yield_quintal_per_ha := 25, water_multiplier := 1.2,
      drought_sensitivity := 0.5 }),
   ("sugarcane",
    { name := "Sugarcane", optimal_ndvi_min := 0.65, optimal_ndvi_max := 0.90,
      water_need_mm_per_week := 55,
      critical_growth_stages := ["Germination (0-30 days)",
        "Tillering (31-120 days)", "Grand Growth (121-270 days)",
        "Maturity (271-365 days)"],
      stress_tolerance := "low", price_per_quintal := 350,
      typical_yield_quintal_per_ha := 700, water_multiplier := 1.6,
      drought_sensitivity := 0.85 }),
   ("maize",
    { name := "Maize", optimal_ndvi_min := 0.55, optimal_ndvi_max := 0.80,
      water_need_mm_per_week := 38,
      critical_growth_stages := ["Germination (0-10 days)",
        "Vegetative (11-50 days)", "Tasseling (51-65 days)",
        "Silking (66-75 days)", "Grain Filling (76-110 days)",
        "Maturity (111-130 days)"],
      stress_tolerance := "medium", price_per_quintal := 1800,
      typical_yield_quintal_per_ha := 55, water_multiplier := 1.1,
      drought_sensitivity := 0.7 }),
   ("vegetables",
    { name := "Vegetables", optimal_ndvi_min := 0.50, optimal_ndvi_max := 0.75,
      water_need_mm_per_week := 30,
      critical_growth_stages := ["Seedling (0-15 days)",
        "Vegetative Growth (16-40 days)", "Flowering (41-60 days)",
        "Fruit Development (61-90 days)", "Harvest (91-120 days)"],
      stress_tolerance := "low-medium", price_per_quintal := 2500,
      typical_yield_quintal_per_ha := 200, water_multiplier := 0.9,
      drought_sensitivity := 0.75 })]

/-- `CropDatabase.get_crop`: `cls.CROPS.get(crop_type.lower())`. -/
def get_crop (crop_type : String) : Option Crop :=
  CROPS.lookup crop_type.toLower

/-- The dict returned by `calculate_water_requirement` (`int(...)` display
truncation of the liter figures omitted; exact values carried). -/
structure WaterRequirement where
  water_mm : ℚ
  liters_per_hectare : ℚ
  total_liters : ℚ
  stress_level : String
deriving DecidableEq

/-- `CropDatabase.calculate_water_requirement` (`crop_database.py`, lines
149-189): base weekly need scaled by a stress-level multiplier
(`stress_multipliers.get(stress_level.lower(), 1.0)`), converted at
1mm = 10,000 L/ha. -/
def calculate_water_requirement (crop_type : String) (field_area_ha : ℚ)
    (stress_level : String) : Option WaterRequirement :=
  match get_crop crop_type with
  | none => none
  | some crop =>
    let base_water_mm := crop.water_need_mm_per_week
    let multiplier :=
      if stress_level.toLower = "healthy" then 0.8
      else if stress_level.toLower = "moderate" then 1.0
      else if stress_level.toLower = "high" then 1.3
      else if stress_level.toLower = "critical" then 1.5
      else 1.0
    let required_mm := base_water_mm * multiplier
    let liters_per_ha := required_mm * 10000
    some { water_mm := required_mm
           liters_per_hectare := liters_per_ha
           total_liters := liters_per_ha * field_area_ha
           stress_level := stress_level }

/-- The assessment returned by `assess_ndvi_for_crop` (the `optimal_range` /
`current_ndvi` echo fields and display rounding omitted). -/
structure NdviAssessment where
  status : String
  deviation : ℚ
deriving DecidableEq

/-- `CropDatabase.assess_ndvi_for_crop` (`crop_database.py`, lines 191-228). -/
def assess_ndvi_for_crop (crop_type : String) (ndvi_value : ℚ) :
    NdviAssessment :=
  match get_crop crop_type with
  | none => { status := "unknown", deviation := 0 }
  | some crop =>
    let min_ndvi := crop.optimal_ndvi_min
    let max_ndvi := crop.optimal_ndvi_max
    let optimal_mid := (min_ndvi + max_ndvi) / 2
    let status :=
      if ndvi_value < min_ndvi - 0.15 then "critical"
      else if ndvi_value < min_ndvi then "high"
      else if ndvi_value < min_ndvi + 0.05 then "moderate"
      else if ndvi_value ≤ max_ndvi then "healthy"
      else "moderate"
    { status := status, deviation := ndvi_value - optimal_mid }

/-- `CropDatabase.get_growth_stage_advice` with `days_after_planting = None`
(the only call made by the recommendation engine). -/
def get_growth_stage_advice (crop_type : String) : String :=
  match get_crop crop_type with
  | none => "No specific advice available"
  | some crop =>
    "Critical growth stages: " ++
      String.intercalate ", " (crop.critical_growth_stages.take 3)

end CropDatabase

namespace FinancialCalculator

/-- Python `int(x)` applied to a float: truncation toward zero. -/
def truncInt (q : ℚ) : ℤ :=
  if 0 ≤ q then ⌊q⌋ else ⌈q⌉

/-- Python `round(x, k)`: rounding to `k` decimal digits, half to even,
modelled exactly over ℚ (the binary-representation artefacts of Python
floats are outside a rational embedding). -/
def pythonRound (k : ℕ) (q : ℚ) : ℚ :=
  let scaled := q * 10 ^ k
  let fl := ⌊scaled⌋
  let frac := scaled - fl
  let n : ℤ :=
    if frac < 1/2 then fl
    else if frac > 1/2 then fl + 1
    else if fl % 2 = 0 then fl else fl + 1
  (n : ℚ) / 10 ^ k

/-- `FinancialCalculator.YIELD_IMPROVEMENT` dict lookup. -/
def YIELD_IMPROVEMENT (key : String) : ℚ :=
  if key = "critical_to_healthy" then 0.15
  else if key = "high_to_healthy" then 0.12
  else if key = "moderate_to_healthy" then 0.08
  else if key = "maintain_healthy" then 0.05
  else 0

/-- A current/optimized scenario block of the ROI analysis dict, carrying
the reported values: `int(...)` fields as integers, `round(x, 1)` fields as
rounded rationals (`financial_calculator.py`, lines 129-143). -/
structure Scenario where
  water_usage_liters : ℤ
  water_cost : ℤ
  yield_quintal : ℚ
  revenue : ℤ
  profit : ℤ
deriving DecidableEq

/-- The `savings` block of the ROI analysis dict, reported values
(`financial_calculator.py`, lines 144-152). -/
structure Savings where
  water_saved_liters : ℤ
  water_saved_percentage : ℚ
  cost_saved : ℤ
  yield_improvement_percentage : ℚ
  yield_increase_quintal : ℚ
  revenue_increase : ℤ
  total_season_benefit : ℤ
deriving DecidableEq

/-- The `roi` block of the ROI analysis dict, reported values
(`financial_calculator.py`, lines 153-158). -/
structure ROIBlock where
  implementation_cost : ℤ
  total_benefit : ℤ
  roi_percentage : ℚ
  payback_months : ℚ
deriving DecidableEq

/-- The `inputs` echo block of the ROI analysis dict. -/
structure ROIInputs where
  field_area_ha : ℚ
  crop_type : String
  crop_name : String
  water_rate_per_1000l : ℚ
  irrigation_method : String
  irrigation_cycles : ℚ
deriving DecidableEq

/-- The complete dict returned by `calculate_roi` (`int(...)` / `round(...)`
display coercions omitted; exact computed values carried). -/
structure ROIAnalysis where
  current_scenario : Scenario
  optimized_scenario : Scenario
  savings : Savings
  roi : ROIBlock
  inputs : ROIInputs
deriving DecidableEq

/-- `FinancialCalculator.calculate_roi` (`financial_calculator.py`, lines
27-167): returns `None` when the crop identifier is unknown, otherwise the
full ROI analysis. -/
def calculate_roi (field_area_ha : ℚ) (crop_type : String)
    (zone_stats : ZoneStats) (water_rate_per_1000l : ℚ)
    (irrigation_method : String) (current_irrigation_cycles : ℚ) :
    Option ROIAnalysis :=
  match CropDatabase.get_crop crop_type with
  | none => none
  | some crop =>
    let current_water_mm_per_cycle :=
      crop.water_need_mm_per_week * crop.water_multiplier
    let current_water_liters := current_water_mm_per_cycle * 10000 *
      field_area_ha * current_irrigation_cycles
    let current_water_cost := (current_water_liters / 1000) *
      water_rate_per_1000l
    let healthy_pct := zone_stats.healthy
    let moderate_pct := zone_stats.moderate
    let high_pct := zone_stats.high
    let critical_pct := zone_stats.critical
    let optimized_multiplier := (healthy_pct * 0.80 + moderate_pct * 1.00 +
      high_pct * 1.20 + critical_pct * 1.40) / 100
    let optimized_water_mm_per_cycle :=
      crop.water_need_mm_per_week * optimized_multiplier
    let optimized_water_liters := optimized_water_mm_per_cycle * 10000 *
      field_area_ha * current_irrigation_cycles
    let optimized_water_cost := (optimized_water_liters / 1000) *
      water_rate_per_1000l
    let water_saved_liters := current_water_liters - optimized_water_liters
    let water_saved_pct :=
      if current_water_liters > 0 then
        water_saved_liters / current_water_liters * 100
      else 0
    let cost_saved := current_water_cost - optimized_water_cost
    let avg_stress_score := (critical_pct * 0.0 + high_pct * 0.3 +
      moderate_pct * 0.6 + healthy_pct * 1.0) / 100
    let yield_improvement_base :=
      if critical_pct > 20 ∨ high_pct > 30 then
        YIELD_IMPROVEMENT "critical_to_healthy"
      else if high_pct > 15 then YIELD_IMPROVEMENT "high_to_healthy"
      else if moderate_pct > 30 then YIELD_IMPROVEMENT "moderate_to_healthy"
      else YIELD_IMPROVEMENT "maintain_healthy"
    let yield_improvement_pct := yield_improvement_base * (1 - avg_stress_score)
    let current_yield_quintal :=
      crop.typical_yield_quintal_per_ha * field_area_ha
    let improved_yield_quintal :=
      current_yield_quintal * (1 + yield_improvement_pct)
    let yield_increase_quintal := improved_yield_quintal - current_yield_quintal
    let price_per_quintal := crop.price_per_quintal
    let revenue_increase := yield_increase_quintal * price_per_quintal
    let current_revenue := current_yield_quintal * price_per_quintal
    let current_total_cost := current_water_cost
    let current_profit := current_revenue - current_total_cost
    let optimized_revenue := improved_yield_quintal * price_per_quintal
    let optimized_total_cost := optimized_water_cost
    let optimized_profit := optimized_revenue - optimized_total_cost
    let total_benefit := cost_saved + revenue_increase
    let implementation_cost : ℚ := 5000
    let roi_percentage :=
      if implementation_cost > 0 then
        total_benefit / implementation_cost * 100
      else 0
    some
      { current_scenario :=
          { water_usage_liters := truncInt current_water_liters
            water_cost := truncInt current_water_cost
            yield_quintal := pythonRound 1 current_yield_quintal
            revenue := truncInt current_revenue
            profit := truncInt current_profit }
        optimized_scenario :=
          { water_usage_liters := truncInt optimized_water_liters
            water_cost := truncInt optimized_water_cost
            yield_quintal := pythonRound 1 improved_yield_quintal
            revenue := truncInt optimized_revenue
            profit := truncInt optimized_profit }
        savings :=
          { water_saved_liters := truncInt water_saved_liters
            water_saved_percentage := pythonRound 1 water_saved_pct
            cost_saved := truncInt cost_saved
            yield_improvement_percentage :=
              pythonRound 1 (yield_improvement_pct * 100)
            yield_increase_quintal := pythonRound 1 yield_increase_quintal
            revenue_increase := truncInt revenue_increase
            total_season_benefit := truncInt total_benefit }
        roi :=
          { implementation_cost := 5000
            total_benefit := truncInt total_benefit
            roi_percentage := pythonRound 1 roi_percentage
            payback_months := pythonRound 1
              (if total_benefit > 0 then
                implementation_cost / total_benefit * 4
              else 0) }
        inputs :=
          { field_area_ha := field_area_ha
            crop_type := crop_type
            crop_name := crop.name
            water_rate_per_1000l := water_rate_per_1000l
            irrigation_method := irrigation_method
            irrigation_cycles := current_irrigation_cycles } }

end FinancialCalculator

namespace RecommendationEngine

/-- One recommendation dict entry; the optional keys `growth_stage_note`
(rule 1 only) and `ndvi_status` (rule 5 only) are modelled as `Option`
fields defaulting to `none`. -/
structure Recommendation where
  priority : ℕ
  urgency : String
  zone : String
  action : String
  reason : String
  water_amount : String
  timing : String
  cost_impact : String
  growth_stage_note : Option String := none
  ndvi_status : Option String := none
deriving DecidableEq

/-- Plain decimal rendering of a rational; approximates the Python
`f-string` number formatting (`:.1f`, thousands separators), which only
affects display text. -/
def fmt (q : ℚ) : String := toString q

/-- `RecommendationEngine.generate_recommendations`
(`recommendation_engine.py`, lines 4-116).  The five rules append their
entries in priority order 1..5; the list is then sorted ascending by
priority and truncated to the first 5 entries.  `quadrants` is the list of
quadrant `stressed_percentage` values (`[q['stressed_percentage'] for q in
quadrants.values()]`); `crop_type.title()` is approximated by
`String.capitalize` (display text only). -/
def generate_recommendations (zone_stats : ZoneStats) (quadrants : List ℚ)
    (deficit : WeatherService.WaterDeficitAssessment) (ndvi_mean : ℚ)
    (crop_type : String) (field_area_ha : ℚ) : List Recommendation :=
  let crop := CropDatabase.get_crop crop_type
  let crop_name := match crop with
    | some c => c.name
    | none => crop_type.capitalize
  let critical_pct := zone_stats.critical
  let recs1 : List Recommendation :=
    if critical_pct > 10 then
      let water_req :=
        CropDatabase.calculate_water_requirement crop_type field_area_ha
          "critical"
      let water_amount_str := match water_req with
        | some w => fmt w.water_mm ++ "mm (" ++ fmt w.liters_per_hectare ++
            " L/hectare)"
        | none => "50-60% increase"
      let growth_advice := CropDatabase.get_growth_stage_advice crop_type
      [{ priority := 1, urgency := "CRITICAL", zone := "Critical",
         action := "URGENT irrigation required for " ++ crop_name,
         reason := fmt critical_pct ++ "% of field in critical stress",
         water_amount := water_amount_str, timing := "Within 24 hours",
         cost_impact := "High", growth_stage_note := some growth_advice }]
    else []
  let high_pct := zone_stats.high
  let recs2 : List Recommendation :=
    if high_pct > 20 then
      let water_req :=
        CropDatabase.calculate_water_requirement crop_type field_area_ha
          "high"
      let water_amount_str := match water_req with
        | some w => fmt w.water_mm ++ "mm (" ++ fmt w.liters_per_hectare ++
            " L/hectare)"
        | none => "30-40% increase"
      [{ priority := 2, urgency := "HIGH", zone := "High",
         action := "Increase irrigation for " ++ crop_name,
         reason := fmt high_pct ++ "% of field in high stress",
         water_amount := water_amount_str, timing := "Within 48 hours",
         cost_impact := "Medium" }]
    else []
  let recs3 : List Recommendation :=
    if deficit.status = "High" then
      let deficit_mm := deficit.deficit_mm
      let liters_needed := deficit_mm * 10000 * field_area_ha
      [{ priority := 3, urgency := "HIGH", zone := "Field-wide",
         action := "General irrigation increase for " ++ crop_name,
         reason := "Water deficit of " ++ fmt deficit_mm ++ "mm detected",
         water_amount := fmt deficit_mm ++ "mm (" ++ fmt liters_needed ++
           " L total)",
         timing := "Within 72 hours", cost_impact := "High" }]
    else []
  let recs4 : List Recommendation :=
    if quadrants.length > 0 then
      let meanq := quadrants.sum / (quadrants.length : ℚ)
      let stress_std := (quadrants.map (fun s => (s - meanq) ^ 2)).sum /
        (quadrants.length : ℚ)
      if stress_std > 100 then
        [{ priority := 4, urgency := "MODERATE", zone := "Variable",
           action := "Check irrigation system",
           reason := "Uneven water distribution detected",
           water_amount := "System check", timing := "Within 1 week",
           cost_impact := "Low" }]
      else []
    else []
  let healthy_pct := zone_stats.healthy
  let recs5 : List Recommendation :=
    if healthy_pct > 50 ∧ deficit.status = "Low" then
      let ndvi_assessment := CropDatabase.assess_ndvi_for_crop crop_type
        ndvi_mean
      [{ priority := 5, urgency := "INFO", zone := "Field-wide",
         action := "Maintain current schedule for " ++ crop_name,
         reason := fmt healthy_pct ++ "% of field healthy, NDVI optimal for "
           ++ crop_name,
         water_amount := "No change", timing := "Continue monitoring",
         cost_impact := "None",
         ndvi_status := some ndvi_assessment.status }]
    else []
  let recommendations := recs1 ++ recs2 ++ recs3 ++ recs4 ++ recs5
  (recommendations.mergeSort
    (fun a b => Nat.ble a.priority b.priority)).take 5

end RecommendationEngine

namespace StressPredictor

/-- One 7-day forecast entry as read by `predict_stress` with
`forecast.get('temp', 25)`, `forecast.get('humidity', 60)`,
`forecast.get('rainfall', 0)`: missing keys default as shown. -/
structure ForecastDay where
  temp : ℚ := 25
  humidity : ℚ := 60
  rainfall : ℚ := 0
deriving DecidableEq

/-- The trained Random Forest classifier, abstracted as a total function
from the 5-feature vector (estimated NDVI, temperature, humidity,
cumulative rainfall, days since rain) to a predicted class together with the
class-probability vector (`model.predict` / `model.predict_proba`).  C10
and C8 hold for every such model; the tree ensemble itself is fit on random
synthetic data and is not part of the deterministic numeric core. -/
def Model : Type :=
  ℚ → ℚ → ℚ → ℚ → ℕ → ℕ × List ℚ

/-- One per-day prediction dict (`round(estimated_ndvi, 3)` display rounding
omitted).  `confidence_score` is `max(stress_proba)`, modelled as a fold of
`max` over the probability vector. -/
structure DayPrediction where
  day : ℕ
  stress_class : ℕ
  stress_probability : ℚ
  risk_level : String
  confidence_score : ℚ
  estimated_ndvi : ℚ
  temp : ℚ
  humidity : ℚ
  rainfall : ℚ
  days_since_rain : ℕ
deriving DecidableEq

/-- The day loop of `StressPredictor.predict_stress`
(`stress_predictor.py`, lines 211-260): running days-since-rain and
decaying cumulative rainfall, estimated NDVI derived from the ORIGINAL
`current_ndvi` (the loop never updates `current_ndvi`), then one model
evaluation per day. -/
def predictLoop (model : Model) (current_ndvi : ℚ) :
    ℕ → ℕ → ℚ → List ForecastDay → List DayPrediction
  | _, _, _, [] => []
  | day_idx, days_since_rain, cumulative_rainfall, f :: rest =>
    let dsr := if f.rainfall > 5 then 0 else days_since_rain + 1
    let cum := if f.rainfall > 5 then f.rainfall
      else max 0 (cumulative_rainfall - 2)
    let estimated_ndvi :=
      if f.rainfall > 10 then
        min 0.9 (current_ndvi + 0.02 * ((day_idx : ℚ) + 1))
      else if f.temp > 35 ∨ dsr > 7 then
        max 0.1 (current_ndvi - 0.015 * ((day_idx : ℚ) + 1))
      else current_ndvi
    let pr := model estimated_ndvi f.temp f.humidity cum dsr
    { day := day_idx + 1
      stress_class := pr.1
      stress_probability := pr.2.getD pr.1 0
      risk_level := ["low", "medium", "high"].getD pr.1 ""
      confidence_score := pr.2.foldr max 0
      estimated_ndvi := estimated_ndvi
      temp := f.temp
      humidity := f.humidity
      rainfall := f.rainfall
      days_since_rain := dsr } ::
      predictLoop model current_ndvi (day_idx + 1) dsr cum rest

/-- `np.mean` over a list; NaN on the empty list is modelled as `none`. -/
def npMean (l : List ℚ) : Option ℚ :=
  if l.isEmpty then none else some (l.sum / (l.length : ℚ))

/-- The `summary` block of the `predict_stress` result (`round(x, 3)`
display rounding of the two means omitted). -/
structure Summary where
  overall_risk : String
  high_stress_days : ℕ
  average_stress_probability : Option ℚ
  recommendation : String
  confidence : Option ℚ
deriving DecidableEq

/-- The full `predict_stress` result dict. -/
structure PredictionResult where
  daily_predictions : List DayPrediction
  summary : Summary
  feature_importance : List (String × ℚ)
deriving DecidableEq

/-- `StressPredictor.predict_stress` (`stress_predictor.py`, lines 192-287)
for a trained model (`self.model is None` raises before this code runs, so
the model is passed as a total function, and `self.feature_importance` as a
parameter). -/
def predict_stress (model : Model) (feature_importance : List (String × ℚ))
    (current_ndvi : ℚ) (weather_forecast : List ForecastDay) :
    PredictionResult :=
  let predictions := predictLoop model current_ndvi 0 0 0
    (weather_forecast.take 7)
  let high_stress_days := predictions.countP (fun p => p.stress_class == 2)
  let avg_stress_prob := npMean (predictions.map
    (fun p => p.stress_probability))
  let overall_risk :=
    if high_stress_days ≥ 3 then "high"
    else if high_stress_days ≥ 1 then "medium"
    else "low"
  let recommendation :=
    if high_stress_days ≥ 3 then
      "URGENT: High stress risk detected. Increase irrigation immediately."
    else if high_stress_days ≥ 1 then
      "MODERATE: Monitor closely and prepare for additional irrigation."
    else "LOW: Continue current irrigation schedule. Monitor conditions."
  { daily_predictions := predictions
    summary :=
      { overall_risk := overall_risk
        high_stress_days := high_stress_days
        average_stress_probability := avg_stress_prob
        recommendation := recommendation
        confidence := npMean (predictions.map
          (fun p => p.confidence_score)) }
    feature_importance := feature_importance }

/-- A trivial concrete model used for concrete evaluations: always predicts
class 0. -/
def constModel : Model := fun _ _ _ _ _ => (0, [])

/-- Modelled from the spec's words (C8): the claimed day-ahead index
recurrence in which each day's estimate is derived from the PREVIOUS day's
estimate (`+0.02*dayIndex` on rain `> 10`, `-0.015*dayIndex` on heat or
drought, unchanged otherwise) and is clipped to `[0.1, 0.9]` every day.
This is the claim's version, kept for comparison with `predictLoop`, which
derives every day from the original index and clips only one-sidedly inside
the two adjustment branches. -/
def claimedEstimates : ℚ → ℕ → ℕ → List ForecastDay → List ℚ
  | _, _, _, [] => []
  | prev, day_idx, days_since_rain, f :: rest =>
    let dsr := if f.rainfall > 5 then 0 else days_since_rain + 1
    let e0 :=
      if f.rainfall > 10 then prev + 0.02 * ((day_idx : ℚ) + 1)
      else if f.temp > 35 ∨ dsr > 7 then prev - 0.015 * ((day_idx : ℚ) + 1)
      else prev
    let e := max 0.1 (min 0.9 e0)
    e :: claimedEstimates e (day_idx + 1) dsr rest

/-- The concrete first-day prediction used as the C8 witness input:
`constModel`, current NDVI 1/2, one forecast day with no rain at 25°C. -/
def witnessDay : DayPrediction :=
  { day := 1, stress_class := 0, stress_probability := 0,
    risk_level := "low", confidence_score := 0, estimated_ndvi := 1/2,
    temp := 25, humidity := 60, rainfall := 0, days_since_rain := 1 }

end StressPredictor

/-- Every value produced by `zipWith f` satisfies any property that all
outputs of `f` satisfy. -/
theorem forall_mem_zipWith {α β γ : Type} {f : α → β → γ} {P : γ → Prop}
    (h : ∀ a b, P (f a b)) :
    ∀ (l1 : List α) (l2 : List β), ∀ x ∈ List.zipWith f l1 l2, P x := by
  intro l1
  induction l1 with
  | nil => intro l2 x hx; simp at hx
  | cons a t ih =>
    intro l2 x hx
    cases l2 with
    | nil => simp at hx
    | cons b t2 =>
      simp only [List.zipWith, List.mem_cons] at hx
      rcases hx with rfl | hx
      · exact h a b
      · exact ih t2 x hx

/-- `getD` through `zipWith` at an index inside both lists. -/
theorem zipWith_getD {α β γ : Type} {f : α → β → γ} (d : γ) (da : α) (db : β) :
    ∀ (l1 : List α) (l2 : List β) (i : ℕ), i < l1.length → i < l2.length →
      (List.zipWith f l1 l2).getD i d = f (l1.getD i da) (l2.getD i db) := by
  intro l1
  induction l1 with
  | nil => intro l2 i h1 _; simp at h1
  | cons a t ih =>
    intro l2 i h1 h2
    cases l2 with
    | nil => simp at h2
    | cons b t2 =>
      cases i with
      | zero => simp
      | succ n =>
        simp only [List.zipWith, List.getD_cons_succ]
        exact ih t2 n (by simpa using h1) (by simpa using h2)

/-- Each NDVI cell value lies in `[-1, 1]`. -/
theorem ndviCell_range (r n : ℚ) :
    -1 ≤ NDVIProcessor.ndviCell r n ∧ NDVIProcessor.ndviCell r n ≤ 1 := by
  unfold NDVIProcessor.ndviCell
  constructor
  · exact le_min (le_max_right _ _) (by norm_num)
  · exact min_le_right _ _

/-- C1 (amended).  For all band grids every cell of `calculate_ndvi` lies in
`[-1, 1]`; a cell with zero denominator `nir + red` equals
`(nir - red) / 1` clipped to `[-1, 1]` (the code clips every cell, including
the zero-denominator fallback cells), and every other cell equals
`(nir - red) / (nir + red)` clipped to `[-1, 1]`. -/
theorem calculate_ndvi_cell_spec :
    (∀ red nir : List (List ℚ), ∀ row ∈ NDVIProcessor.calculate_ndvi red nir,
      ∀ x ∈ row, -1 ≤ x ∧ x ≤ 1) ∧
    (∀ (red nir : List (List ℚ)) (i j : ℕ),
      i < red.length → i < nir.length →
      j < (red.getD i []).length → j < (nir.getD i []).length →
      ((NDVIProcessor.calculate_ndvi red nir).getD i []).getD j 0 =
        (let r := (red.getD i []).getD j 0
         let n := (nir.getD i []).getD j 0
         if n + r = 0 then min (max ((n - r) / 1) (-1)) 1
         else min (max ((n - r) / (n + r)) (-1)) 1)) := by
  constructor
  · intro red nir row hrow x hx
    refine forall_mem_zipWith (P := fun row => ∀ x ∈ row, -1 ≤ x ∧ x ≤ 1)
      (fun a b => ?_) red nir row hrow x hx
    intro y hy
    exact forall_mem_zipWith (P := fun y => -1 ≤ y ∧ y ≤ 1)
      ndviCell_range a b y hy
  · intro red nir i j hi1 hi2 hj1 hj2
    unfold NDVIProcessor.calculate_ndvi
    rw [zipWith_getD [] [] [] red nir i hi1 hi2,
      zipWith_getD 0 0 0 _ _ j hj1 hj2]
    unfold NDVIProcessor.ndviCell
    by_cases h : (nir.getD i []).getD j 0 + (red.getD i []).getD j 0 = 0
    · simp only [h, if_true]
    · simp only [h, if_false]

/-- Witness for C1: concrete instantiation of the cell formula at a
zero-denominator cell. -/
theorem calculate_ndvi_cell_spec_witness :
    ((NDVIProcessor.calculate_ndvi [[-5]] [[5]]).getD 0 []).getD 0 0 =
      (let r := (([[-5]] : List (List ℚ)).getD 0 []).getD 0 0
       let n := (([[5]] : List (List ℚ)).getD 0 []).getD 0 0
       if n + r = 0 then min (max ((n - r) / 1) (-1)) 1
       else min (max ((n - r) / (n + r)) (-1)) 1) :=
  calculate_ndvi_cell_spec.2 [[-5]] [[5]] 0 0 (by decide) (by decide)
    (by decide) (by decide)

/-- C1 counterexample to the claim as stated: at the cell `red = -5`,
`nir = 5` the denominator is exactly zero, the claim predicts the value
`(nir - red) / 1 = 10`, but the code clips this cell as well and returns 1. -/
theorem calculate_ndvi_zero_denominator_clipped :
    ((-5 : ℚ) + 5 = 0) ∧
    ((NDVIProcessor.calculate_ndvi [[-5]] [[5]]).getD 0 []).getD 0 0 = 1 ∧
    (((5 : ℚ) - (-5)) / 1 = 10) ∧ ((1 : ℚ) ≠ 10) := by
  refine ⟨by norm_num, ?_, by norm_num, by norm_num⟩
  simp [NDVIProcessor.calculate_ndvi, NDVIProcessor.ndviCell]
  norm_num

/-- `zoneCell` only produces the four codes 0..3. -/
theorem zoneCell_lt_four (ct ht mt v : ℚ) :
    StressAnalyzer.zoneCell ct ht mt v < 4 := by
  simp only [StressAnalyzer.zoneCell]
  split
  · omega
  split
  · omega
  split
  · omega
  split <;> omega

/-- Every cell of a zone map produced by `detect_stress_zones` is in 0..3. -/
theorem detect_stress_zones_lt_four (ndvi : List (List ℚ)) (rain : Option ℚ) :
    ∀ z ∈ (StressAnalyzer.detect_stress_zones ndvi rain).flatten, z < 4 := by
  intro z hz
  simp only [StressAnalyzer.detect_stress_zones, List.mem_flatten,
    List.mem_map] at hz
  obtain ⟨row, ⟨r0, _, rfl⟩, hzrow⟩ := hz
  obtain ⟨v, _, rfl⟩ := List.mem_map.mp hzrow
  exact zoneCell_lt_four _ _ _ v

/-- A list of codes all below 4 is partitioned by the four point-counts. -/
theorem countP_partition_lt_four (l : List ℕ) (h : ∀ x ∈ l, x < 4) :
    l.countP (· == 0) + l.countP (· == 1) + l.countP (· == 2) +
      l.countP (· == 3) = l.length := by
  induction l with
  | nil => simp
  | cons a t ih =>
    have ha : a < 4 := h a (List.mem_cons_self a t)
    have ht := ih (fun x hx => h x (List.mem_cons_of_mem a hx))
    simp only [List.countP_cons, List.length_cons]
    interval_cases a <;> simp <;> omega

/-- Flattening a grid after an elementwise map has the same number of cells. -/
theorem flatten_map_map_length {α β : Type} (g : α → β) (l : List (List α)) :
    (l.map (List.map g)).flatten.length = l.flatten.length := by
  induction l with
  | nil => simp
  | cons r t ih => simp [ih]

/-- The zone map has exactly as many cells as the NDVI grid it came from. -/
theorem detect_stress_zones_length (ndvi : List (List ℚ)) (rain : Option ℚ) :
    (StressAnalyzer.detect_stress_zones ndvi rain).flatten.length =
      ndvi.flatten.length := by
  simp only [StressAnalyzer.detect_stress_zones]
  exact flatten_map_map_length _ ndvi

/-- C2.  For every zone map produced by `detect_stress_zones` from a
non-empty NDVI grid, `calculate_zone_statistics` returns statistics for
exactly the four categories Critical, High, Moderate, Healthy, the four
percentages sum to exactly 100, and a category with zero member cells
reports mean NDVI exactly 0 (never undefined). -/
theorem zone_statistics_invariants (ndvi : List (List ℚ)) (rain : Option ℚ)
    (h : 0 < ndvi.flatten.length) :
    ((StressAnalyzer.calculate_zone_statistics
        (StressAnalyzer.detect_stress_zones ndvi rain) ndvi).map Prod.fst =
      ["Critical", "High", "Moderate", "Healthy"]) ∧
    (((StressAnalyzer.calculate_zone_statistics
        (StressAnalyzer.detect_stress_zones ndvi rain) ndvi).map
        (fun p => p.2.percentage)).sum = 100) ∧
    (∀ i, (StressAnalyzer.detect_stress_zones ndvi rain).flatten.countP
        (· == i) = 0 →
      (StressAnalyzer.zoneStatFor (StressAnalyzer.detect_stress_zones ndvi rain)
        ndvi i).mean_ndvi = 0) := by
  refine ⟨rfl, ?_, ?_⟩
  · have hlen := detect_stress_zones_length ndvi rain
    have hpart := countP_partition_lt_four
      (StressAnalyzer.detect_stress_zones ndvi rain).flatten
      (detect_stress_zones_lt_four ndvi rain)
    simp only [StressAnalyzer.calculate_zone_statistics,
      StressAnalyzer.zoneStatFor, List.range_succ, List.range_zero,
      List.nil_append, List.cons_append, List.map_cons, List.map_nil,
      List.sum_cons, List.sum_nil]
    set zs := StressAnalyzer.detect_stress_zones ndvi rain with hzs
    set t := zs.flatten.length with htdef
    set c0 := zs.flatten.countP (· == 0) with hc0
    set c1 := zs.flatten.countP (· == 1) with hc1
    set c2 := zs.flatten.countP (· == 2) with hc2
    set c3 := zs.flatten.countP (· == 3) with hc3
    have ht0 : 0 < t := by omega
    have htQ : ((t : ℚ)) ≠ 0 := by
      exact_mod_cast Nat.pos_iff_ne_zero.mp ht0
    have hsumQ : ((c0 : ℚ)) + c1 + c2 + c3 = (t : ℚ) := by exact_mod_cast hpart
    field_simp
    linarith [hsumQ]
  · intro i hi
    simp [StressAnalyzer.zoneStatFor, hi]

/-- Witness for C2 at the concrete one-cell grid `[[0.7]]`. -/
theorem zone_statistics_invariants_witness :
    0 < ([[(0.7 : ℚ)]] : List (List ℚ)).flatten.length ∧
    (((StressAnalyzer.calculate_zone_statistics
        (StressAnalyzer.detect_stress_zones [[(0.7 : ℚ)]] none) [[(0.7 : ℚ)]]).map
        Prod.fst = ["Critical", "High", "Moderate", "Healthy"]) ∧
    (((StressAnalyzer.calculate_zone_statistics
        (StressAnalyzer.detect_stress_zones [[(0.7 : ℚ)]] none) [[(0.7 : ℚ)]]).map
        (fun p => p.2.percentage)).sum = 100) ∧
    (∀ i, (StressAnalyzer.detect_stress_zones [[(0.7 : ℚ)]] none).flatten.countP
        (· == i) = 0 →
      (StressAnalyzer.zoneStatFor
        (StressAnalyzer.detect_stress_zones [[(0.7 : ℚ)]] none)
        [[(0.7 : ℚ)]] i).mean_ndvi = 0)) :=
  ⟨by decide, zone_statistics_invariants [[(0.7 : ℚ)]] none (by decide)⟩

/-- The severity-label chain used by `assess_water_deficit`, characterised
as exact interval conditions. -/
theorem severity_label_cases (d : ℚ) :
    (((if d > 40 then "High" else if d > 25 then "Moderate" else "Low") :
        String) = "High" ↔ 40 < d) ∧
    (((if d > 40 then "High" else if d > 25 then "Moderate" else "Low") :
        String) = "Moderate" ↔ 25 < d ∧ d ≤ 40) ∧
    (((if d > 40 then "High" else if d > 25 then "Moderate" else "Low") :
        String) = "Low" ↔ d ≤ 25) := by
  have hHM : ("High" : String) ≠ "Moderate" := by decide
  have hHL : ("High" : String) ≠ "Low" := by decide
  have hML : ("Moderate" : String) ≠ "Low" := by decide
  split_ifs with h1 h2 <;>
    refine ⟨?_, ?_, ?_⟩ <;>
    simp_all <;> linarith

/-- C5 (amended).  The severity label is High exactly when the final deficit
exceeds 40mm, Moderate exactly when it exceeds 25mm and is at most 40mm, and
Low exactly when it is at most 25mm; in the scenario et0Daily = 5,
rainfall = 10, no mean index and no zone statistics, the deficit is exactly
25mm and — because the code uses a strict `>` — the returned status is
"Low", not "Moderate". -/
theorem assess_water_deficit_severity :
    (∀ (et0_daily rainfall : ℚ) (m : Option ℚ) (zs : Option ZoneStats),
      ((WeatherService.assess_water_deficit et0_daily rainfall m zs).status =
          "High" ↔
        40 < (WeatherService.assess_water_deficit et0_daily rainfall m
          zs).deficit_mm) ∧
      ((WeatherService.assess_water_deficit et0_daily rainfall m zs).status =
          "Moderate" ↔
        25 < (WeatherService.assess_water_deficit et0_daily rainfall m
          zs).deficit_mm ∧
        (WeatherService.assess_water_deficit et0_daily rainfall m
          zs).deficit_mm ≤ 40) ∧
      ((WeatherService.assess_water_deficit et0_daily rainfall m zs).status =
          "Low" ↔
        (WeatherService.assess_water_deficit et0_daily rainfall m
          zs).deficit_mm ≤ 25)) ∧
    ((WeatherService.assess_water_deficit 5 10 none none).deficit_mm = 25 ∧
      (WeatherService.assess_water_deficit 5 10 none none).status = "Low") := by
  have h25 : (WeatherService.assess_water_deficit 5 10 none none).deficit_mm
      = 25 := by
    simp only [WeatherService.assess_water_deficit]
    rw [show ((5 : ℚ) * 7 - 10) = 25 by norm_num,
      max_eq_left (by norm_num : (10 : ℚ) ≤ 25)]
  refine ⟨fun et0_daily rainfall m zs => ?_, h25, ?_⟩
  · exact severity_label_cases _
  · simp only [WeatherService.assess_water_deficit]
    rw [show ((5 : ℚ) * 7 - 10) = 25 by norm_num,
      max_eq_left (by norm_num : (10 : ℚ) ≤ 25),
      if_neg (by norm_num), if_neg (by norm_num)]


/-- C5 counterexample to the claim as stated: in the scenario et0Daily = 5,
rainfall = 10, no zone statistics, the final deficit is exactly 25mm, which
does not exceed 25, so the code returns "Low" — not "Moderate" as the
claim's scenario asserts. -/
theorem assess_water_deficit_boundary_counterexample :
    (WeatherService.assess_water_deficit 5 10 none none).deficit_mm = 25 ∧
    (WeatherService.assess_water_deficit 5 10 none none).status = "Low" ∧
    ("Low" : String) ≠ "Moderate" := by
  refine ⟨?_, ?_, by decide⟩ <;>
    simp only [WeatherService.assess_water_deficit] <;>
    rw [show ((5 : ℚ) * 7 - 10) = 25 by norm_num,
      max_eq_left (by norm_num : (10 : ℚ) ≤ 25)]
  rw [if_neg (by norm_num), if_neg (by norm_num)]

/-- C6 counterexample to the claim as stated: zone statistics are supplied
(100% critical) but the mean index is `None`; the claim predicts the base
deficit 70 scaled by the stress factor 1.8 to 126, while the code skips the
scaling entirely (it requires both inputs) and returns 70. -/
theorem assess_water_deficit_scaling_counterexample :
    (WeatherService.assess_water_deficit 10 0 none
      (some { critical := 100, high := 0, moderate := 0, healthy := 0 })).deficit_mm
      = 70 ∧
    ((10 : ℚ) * 7 - 0) *
      (1 + (100 / 100) * 0.8 + (0 / 100) * 0.5 + (0 / 100) * 0.2) = 126 ∧
    ((70 : ℚ) ≠ 126) := by
  refine ⟨?_, by norm_num, by norm_num⟩
  simp only [WeatherService.assess_water_deficit]
  rw [show ((10 : ℚ) * 7 - 0) = 70 by norm_num,
    max_eq_left (by norm_num : (10 : ℚ) ≤ 70)]

/-- C6 (amended).  The stress-factor scaling (and the mean-index
multipliers 1.5 / 1.2) apply only when BOTH a mean index and zone statistics
are supplied; when either is `None` the deficit is the unscaled base weekly
deficit (floored at 10mm); and for every input the returned deficit is at
least 10mm. -/
theorem assess_water_deficit_scaling_spec :
    (∀ (et0_daily rainfall m : ℚ) (zs : ZoneStats),
      (WeatherService.assess_water_deficit et0_daily rainfall (some m)
        (some zs)).deficit_mm =
      max ((et0_daily * 7 - rainfall) *
        (1 + zs.critical / 100 * 0.8 + zs.high / 100 * 0.5 +
          zs.moderate / 100 * 0.2) *
        (if m < 0.3 then 1.5 else if m < 0.5 then 1.2 else 1)) 10) ∧
    (∀ (et0_daily rainfall : ℚ) (zso : Option ZoneStats),
      (WeatherService.assess_water_deficit et0_daily rainfall none
        zso).deficit_mm = max (et0_daily * 7 - rainfall) 10) ∧
    (∀ (et0_daily rainfall m : ℚ),
      (WeatherService.assess_water_deficit et0_daily rainfall (some m)
        none).deficit_mm = max (et0_daily * 7 - rainfall) 10) ∧
    (∀ (et0_daily rainfall : ℚ) (mo : Option ℚ) (zso : Option ZoneStats),
      10 ≤ (WeatherService.assess_water_deficit et0_daily rainfall mo
        zso).deficit_mm) := by
  refine ⟨?_, ?_, ?_, ?_⟩
  · intro et0_daily rainfall m zs
    simp only [WeatherService.assess_water_deficit]
    split_ifs <;> congr 1 <;> ring
  · intro et0_daily rainfall zso
    cases zso <;> rfl
  · intro et0_daily rainfall m
    rfl
  · intro et0_daily rainfall mo zso
    cases mo <;> cases zso <;> exact le_max_right _ _

/-- C7 counterexample to the claim as stated: at temperature −1 the code
returns the exception-handler default 5.0, while the claimed formula
`max(0, 0.0023 * (T + 17.8) * sqrt(T) * 5)` evaluates to 0 (the square root
of a negative number is not a number; `Real.sqrt` maps it to 0, and in
Python `math.sqrt(-1)` raises). -/
theorem calculate_et0_negative_counterexample :
    WeatherService.calculate_et0 (-1) = 5 ∧
    max 0 (0.0023 * ((-1 : ℝ) + 17.8) * Real.sqrt (-1) * 5) = 0 ∧
    ((5 : ℝ) ≠ 0) := by
  refine ⟨?_, ?_, by norm_num⟩
  · simp only [WeatherService.calculate_et0]
    rw [if_pos (by norm_num)]
  · have hs : Real.sqrt (-1) = 0 :=
      Real.sqrt_eq_zero'.mpr (by norm_num)
    rw [hs]
    simp

/-- C7 (amended).  For every non-negative temperature the reference
evapotranspiration equals `max(0, 0.0023 * (T + 17.8) * sqrt(T) * 5)`; for
every negative temperature `math.sqrt` raises and the handler returns the
default 5.0 (so the result is never negative); and the value at T = 30 is
within 0.005 of 3.01 — it rounds to 3.01 mm/day, not to the 3.02 stated in
the claim. -/
theorem calculate_et0_spec :
    (∀ T : ℝ, 0 ≤ T → WeatherService.calculate_et0 T =
      max 0 (0.0023 * (T + 17.8) * Real.sqrt T * 5)) ∧
    (∀ T : ℝ, T < 0 → WeatherService.calculate_et0 T = 5) ∧
    (3.005 < WeatherService.calculate_et0 30 ∧
      WeatherService.calculate_et0 30 < 3.015) := by
  refine ⟨?_, ?_, ?_, ?_⟩
  · intro T hT
    simp only [WeatherService.calculate_et0]
    rw [if_neg (not_lt.mpr hT)]
  · intro T hT
    simp only [WeatherService.calculate_et0]
    rw [if_pos hT]
  all_goals {
    have h30 : WeatherService.calculate_et0 30 =
        0.0023 * ((30 : ℝ) + 17.8) * Real.sqrt 30 * 5 := by
      simp only [WeatherService.calculate_et0]
      rw [if_neg (by norm_num)]
      refine max_eq_right ?_
      have := Real.sqrt_nonneg (30 : ℝ)
      positivity
    have hs_lb : (5.4667 : ℝ) < Real.sqrt 30 :=
      (Real.lt_sqrt (by norm_num)).mpr (by norm_num)
    have hs_ub : Real.sqrt 30 < 5.4848 :=
      (Real.sqrt_lt' (by norm_num)).mpr (by norm_num)
    rw [h30]
    nlinarith [hs_lb, hs_ub]
  }

/-- Witness for C7 at the concrete temperatures 0 and −2. -/
theorem calculate_et0_spec_witness :
    WeatherService.calculate_et0 0 =
      max 0 (0.0023 * ((0 : ℝ) + 17.8) * Real.sqrt 0 * 5) ∧
    WeatherService.calculate_et0 (-2) = 5 :=
  ⟨calculate_et0_spec.1 0 le_rfl,
    calculate_et0_spec.2.1 (-2) (neg_lt_zero.mpr two_pos)⟩

/-- An association-list lookup fails exactly when the key is absent. -/
theorem lookup_eq_none_iff {β : Type} (l : List (String × β)) (k : String) :
    l.lookup k = none ↔ k ∉ l.map Prod.fst := by
  induction l with
  | nil => simp
  | cons p t ih =>
    obtain ⟨a, b⟩ := p
    by_cases h : k = a
    · subst h
      simp [List.lookup]
    · simp [List.lookup, beq_false_of_ne h, ih, h]

/-- The first five entries of a priority-sorted recommendation list are
pairwise non-decreasing in priority. -/
theorem take_mergeSort_priority_pairwise
    (l : List RecommendationEngine.Recommendation) :
    List.Pairwise (fun a b => a.priority ≤ b.priority)
      ((l.mergeSort (fun a b => Nat.ble a.priority b.priority)).take 5) := by
  have hp := @List.sorted_mergeSort _
    (fun a b => Nat.ble a.priority b.priority)
    (fun a b c hab hbc => by
      simp only [Nat.ble_eq] at *
      omega)
    (fun a b => by
      simp only [Bool.or_eq_true, Nat.ble_eq]
      omega) l
  have hsub := List.Pairwise.sublist (List.take_sublist 5 _) hp
  exact hsub.imp (fun h => by simpa [Nat.ble_eq] using h)

/-- C3.  For every input, `generate_recommendations` returns at most 5
entries and the priorities are monotonically non-decreasing from first to
last. -/
theorem generate_recommendations_sorted_capped (zone_stats : ZoneStats)
    (quadrants : List ℚ) (deficit : WeatherService.WaterDeficitAssessment)
    (ndvi_mean : ℚ) (crop_type : String) (field_area_ha : ℚ) :
    (RecommendationEngine.generate_recommendations zone_stats quadrants
      deficit ndvi_mean crop_type field_area_ha).length ≤ 5 ∧
    List.Pairwise (fun a b => a.priority ≤ b.priority)
      (RecommendationEngine.generate_recommendations zone_stats quadrants
        deficit ndvi_mean crop_type field_area_ha) := by
  constructor
  · have h : ∀ (l : List RecommendationEngine.Recommendation),
        (l.take 5).length ≤ 5 := fun l => by
      rw [List.length_take]
      exact min_le_left _ _
    exact h _
  · exact take_mergeSort_priority_pairwise _

/-- Truncation toward zero moves a rational by strictly less than 1. -/
theorem truncInt_sub_abs_lt (q : ℚ) :
    |(FinancialCalculator.truncInt q : ℚ) - q| < 1 := by
  unfold FinancialCalculator.truncInt
  split_ifs with h
  · rw [abs_lt]
    constructor
    · linarith [Int.sub_one_lt_floor q]
    · linarith [Int.floor_le q]
  · rw [abs_lt]
    constructor
    · linarith [Int.le_ceil q]
    · linarith [Int.ceil_lt_add_one q]

/-- The reported (truncated) sum differs from the sum of the reported
(truncated) summands by at most 2. -/
theorem truncInt_add_bound (a b : ℚ) :
    (FinancialCalculator.truncInt (a + b) -
      (FinancialCalculator.truncInt a +
        FinancialCalculator.truncInt b)).natAbs ≤ 2 := by
  have h1 := truncInt_sub_abs_lt (a + b)
  have h2 := truncInt_sub_abs_lt a
  have h3 := truncInt_sub_abs_lt b
  rw [abs_lt] at h1 h2 h3
  have hQ : |((FinancialCalculator.truncInt (a + b) -
      (FinancialCalculator.truncInt a +
        FinancialCalculator.truncInt b) : ℤ) : ℚ)| < 3 := by
    rw [abs_lt]
    push_cast
    constructor <;> linarith
  have hZ : |FinancialCalculator.truncInt (a + b) -
      (FinancialCalculator.truncInt a +
        FinancialCalculator.truncInt b)| < 3 := by
    exact_mod_cast hQ
  rw [Int.abs_eq_natAbs] at hZ
  omega

/-- C4 (amended).  For every successful `calculate_roi` result there are
exact computed quantities cost_saved and revenue_increase such that the
reported integer fields are their Python-`int()` truncations, the computed
total benefit is exactly their sum (the identity holds before display
truncation), the reported ROI percentage and payback months are the
1-decimal roundings of total benefit / 5000 × 100 and of the 0-guarded
implementation cost / total benefit × 4; consequently the reported total
benefit can differ from reported cost saved + reported revenue increase,
though by at most 2. -/
theorem calculate_roi_identities (field_area_ha : ℚ) (crop_type : String)
    (zone_stats : ZoneStats) (water_rate : ℚ) (irrigation_method : String)
    (cycles : ℚ) :
    (FinancialCalculator.calculate_roi field_area_ha crop_type zone_stats
      water_rate irrigation_method cycles).elim True (fun r =>
      ∃ cost_saved revenue_increase : ℚ,
        r.savings.cost_saved = FinancialCalculator.truncInt cost_saved ∧
        r.savings.revenue_increase =
          FinancialCalculator.truncInt revenue_increase ∧
        r.roi.total_benefit =
          FinancialCalculator.truncInt (cost_saved + revenue_increase) ∧
        r.savings.total_season_benefit =
          FinancialCalculator.truncInt (cost_saved + revenue_increase) ∧
        r.roi.implementation_cost = 5000 ∧
        r.roi.roi_percentage = FinancialCalculator.pythonRound 1
          ((cost_saved + revenue_increase) / 5000 * 100) ∧
        r.roi.payback_months = FinancialCalculator.pythonRound 1
          (if 0 < cost_saved + revenue_increase then
            5000 / (cost_saved + revenue_increase) * 4
          else 0) ∧
        (r.roi.total_benefit -
          (r.savings.cost_saved + r.savings.revenue_increase)).natAbs ≤ 2) := by
  cases hC : CropDatabase.get_crop crop_type with
  | none => simp [FinancialCalculator.calculate_roi, hC]
  | some crop =>
    simp only [FinancialCalculator.calculate_roi, hC, Option.elim]
    refine ⟨_, _, rfl, rfl, rfl, rfl, trivial, ?_, rfl, ?_⟩
    · rw [if_pos (by norm_num : (5000 : ℚ) > 0)]
    · exact truncInt_add_bound _ _

/-- C4 counterexample to the claim as stated: wheat, area 1 ha, 1 cycle,
water rate 50.54, zones 50% Healthy / 50% Moderate give exact cost saved
1768.9, revenue increase 1411.2, total benefit 3180.1; the reported values
are their int() truncations 1768, 1411 and 3180, and 3180 is not equal to
1768 + 1411 — the reported total benefit does not equal reported cost saved
plus reported revenue increase. -/
theorem calculate_roi_reported_counterexample :
    (FinancialCalculator.calculate_roi 1 "wheat"
      { critical := 0, high := 0, moderate := 50, healthy := 50 }
      50.54 "flood" 1).elim False (fun r =>
      r.savings.cost_saved = 1768 ∧
      r.savings.revenue_increase = 1411 ∧
      r.roi.total_benefit = 3180 ∧
      r.roi.total_benefit ≠
        r.savings.cost_saved + r.savings.revenue_increase) := by
  have hlow : ("wheat".toLower) = "wheat" := by
    unfold String.toLower
    rw [String.map_eq]
    decide
  have hC : CropDatabase.get_crop "wheat" =
      some { name := "Wheat", optimal_ndvi_min := 0.55,
             optimal_ndvi_max := 0.80, water_need_mm_per_week := 35,
             critical_growth_stages := ["Germination (0-10 days)",
               "Crown Root Initiation (11-21 days)", "Tillering (22-60 days)",
               "Jointing (61-90 days)", "Heading/Flowering (91-110 days)",
               "Grain Filling (111-130 days)"],
             stress_tolerance := "medium", price_per_quintal := 2100,
             typical_yield_quintal_per_ha := 42, water_multiplier := 1.0,
             drought_sensitivity := 0.6 } := by
    unfold CropDatabase.get_crop
    rw [hlow]
    rfl
  simp only [FinancialCalculator.calculate_roi, hC, Option.elim]
  have hs1 : "moderate_to_healthy" ≠ "critical_to_healthy" := by decide
  have hs2 : "moderate_to_healthy" ≠ "high_to_healthy" := by decide
  refine ⟨?_, ?_, ?_, ?_⟩ <;>
    norm_num [FinancialCalculator.truncInt,
      FinancialCalculator.YIELD_IMPROVEMENT, hs1, hs2]

/-- C9.  `calculate_roi` succeeds exactly when the crop identifier (after
lowercasing, as `get_crop` does) is a key of the crop profile table; an
unknown identifier yields the defined error value `None`, never an
exception. -/
theorem calculate_roi_unknown_crop (field_area_ha : ℚ) (crop_type : String)
    (zone_stats : ZoneStats) (water_rate : ℚ) (irrigation_method : String)
    (cycles : ℚ) :
    ((FinancialCalculator.calculate_roi field_area_ha crop_type zone_stats
        water_rate irrigation_method cycles).isSome ↔
      (CropDatabase.get_crop crop_type).isSome) ∧
    (CropDatabase.get_crop crop_type = none ↔
      crop_type.toLower ∉ CropDatabase.CROPS.map Prod.fst) := by
  constructor
  · unfold FinancialCalculator.calculate_roi
    cases CropDatabase.get_crop crop_type <;> simp
  · unfold CropDatabase.get_crop
    exact lookup_eq_none_iff _ _

/-- Day-loop invariant for C8: every produced day estimate is computed from
the ORIGINAL current index (never from the previous day's estimate), with a
one-sided cap at 0.9 in the rain branch and a one-sided floor at 0.1 in the
heat/drought branch, and stays in `[0.1, 0.9]` whenever the current index
is in `[0.1, 0.9]`. -/
theorem predictLoop_estimate_spec (model : StressPredictor.Model)
    (ndvi : ℚ) (h1 : 1/10 ≤ ndvi) (h2 : ndvi ≤ 9/10) :
    ∀ (fc : List StressPredictor.ForecastDay)
      (day_idx days_since_rain : ℕ) (cum : ℚ),
      ∀ p ∈ StressPredictor.predictLoop model ndvi day_idx days_since_rain
          cum fc,
        (p.estimated_ndvi =
          if p.rainfall > 10 then min 0.9 (ndvi + 0.02 * (p.day : ℚ))
          else if p.temp > 35 ∨ p.days_since_rain > 7 then
            max 0.1 (ndvi - 0.015 * (p.day : ℚ))
          else ndvi) ∧
        1/10 ≤ p.estimated_ndvi ∧ p.estimated_ndvi ≤ 9/10 := by
  intro fc
  induction fc with
  | nil =>
    intro day_idx days_since_rain cum p hp
    simp [StressPredictor.predictLoop] at hp
  | cons f rest ih =>
    intro day_idx days_since_rain cum p hp
    simp only [StressPredictor.predictLoop] at hp
    rcases List.mem_cons.mp hp with rfl | hp2
    · have hd : ((day_idx + 1 : ℕ) : ℚ) = (day_idx : ℚ) + 1 := by push_cast; ring
      have hc : (0 : ℚ) ≤ 0.02 * ((day_idx : ℚ) + 1) := by positivity
      have hc2 : (0 : ℚ) ≤ 0.015 * ((day_idx : ℚ) + 1) := by positivity
      refine ⟨?_, ?_⟩
      · dsimp only
        rw [hd]
      · dsimp only
        by_cases hr : f.rainfall > 10
        · rw [if_pos hr]
          exact ⟨le_min (by norm_num) (by linarith),
            le_trans (min_le_left _ _) (by norm_num)⟩
        · rw [if_neg hr]
          by_cases hs : f.temp > 35 ∨
              (if f.rainfall > 5 then 0 else days_since_rain + 1) > 7
          · rw [if_pos hs]
            exact ⟨le_trans (by norm_num : (1 : ℚ)/10 ≤ 0.1)
                (le_max_left _ _),
              max_le (by norm_num) (by linarith)⟩
          · rw [if_neg hs]
            exact ⟨h1, h2⟩
    · exact ih _ _ _ p hp2

/-- C8 (amended).  For every trained model and every forecast, each day's
estimated vegetation index is derived from the ORIGINAL current index (the
loop never feeds the previous day's estimate forward): increased by
0.02 x dayIndex capped above at 0.9 when that day's rainfall exceeds 10mm,
decreased by 0.015 x dayIndex floored below at 0.1 when temperature exceeds
35°C or daysSinceRain exceeds 7, and otherwise exactly the unmodified (and
unclipped) current index; consequently, whenever the current index lies in
`[0.1, 0.9]`, every day's estimate lies in `[0.1, 0.9]`. -/
theorem predict_stress_estimated_ndvi_spec (model : StressPredictor.Model)
    (fi : List (String × ℚ)) (current_ndvi : ℚ)
    (forecast : List StressPredictor.ForecastDay)
    (h1 : 1/10 ≤ current_ndvi) (h2 : current_ndvi ≤ 9/10) :
    ∀ p ∈ (StressPredictor.predict_stress model fi current_ndvi
        forecast).daily_predictions,
      (p.estimated_ndvi =
        if p.rainfall > 10 then min 0.9 (current_ndvi + 0.02 * (p.day : ℚ))
        else if p.temp > 35 ∨ p.days_since_rain > 7 then
          max 0.1 (current_ndvi - 0.015 * (p.day : ℚ))
        else current_ndvi) ∧
      1/10 ≤ p.estimated_ndvi ∧ p.estimated_ndvi ≤ 9/10 := by
  intro p hp
  simp only [StressPredictor.predict_stress] at hp
  exact predictLoop_estimate_spec model current_ndvi h1 h2
    (forecast.take 7) 0 0 0 p hp

/-- Witness for C8 at a concrete one-day forecast. -/
theorem predict_stress_estimated_ndvi_spec_witness :
    (1/10 : ℚ) ≤ StressPredictor.witnessDay.estimated_ndvi ∧
    StressPredictor.witnessDay.estimated_ndvi ≤ 9/10 := by
  have hmem : StressPredictor.witnessDay ∈
      (StressPredictor.predict_stress StressPredictor.constModel [] (1/2)
        [{ temp := 25, humidity := 60, rainfall := 0 }]).daily_predictions := by
    norm_num [StressPredictor.predict_stress, StressPredictor.predictLoop,
      StressPredictor.constModel, StressPredictor.witnessDay]
  have h := predict_stress_estimated_ndvi_spec StressPredictor.constModel []
    (1/2) [{ temp := 25, humidity := 60, rainfall := 0 }] (by norm_num)
    (by norm_num) StressPredictor.witnessDay hmem
  exact ⟨h.2.1, h.2.2⟩

/-- C8 counterexample to the claim as stated: current index 1/2, day 1 has
heavy rain (20mm) so the day-1 estimate is 0.52; day 2 has no rain, no heat
and a small daysSinceRain, so the claimed previous-estimate recurrence
keeps 0.52, but the code recomputes day 2 from the ORIGINAL index and
returns 1/2. -/
theorem predict_stress_estimated_ndvi_counterexample :
    ((StressPredictor.predict_stress StressPredictor.constModel [] (1/2)
      [{ temp := 25, humidity := 60, rainfall := 20 },
       { temp := 25, humidity := 60, rainfall := 0 }]).daily_predictions.map
      (fun p => p.estimated_ndvi) = [13/25, 1/2]) ∧
    (StressPredictor.claimedEstimates (1/2) 0 0
      [{ temp := 25, humidity := 60, rainfall := 20 },
       { temp := 25, humidity := 60, rainfall := 0 }] = [13/25, 13/25]) ∧
    ((1/2 : ℚ) ≠ 13/25) := by
  refine ⟨?_, ?_, by norm_num⟩
  · norm_num [StressPredictor.predict_stress, StressPredictor.predictLoop,
      StressPredictor.constModel, min_def, max_def]
  · norm_num [StressPredictor.claimedEstimates, min_def, max_def]

/-- C10.  For every trained model, calling `predict_stress` with an empty
weather forecast returns an empty prediction list, 0 high-stress days and
overall risk low, but the summary means `average_stress_probability` and
`confidence` are the mean of an empty sequence — `np.mean([])`, an
unguarded 0/0 producing NaN (modelled as `none`), not a defined number. -/
theorem predict_stress_empty_forecast (model : StressPredictor.Model)
    (fi : List (String × ℚ)) (current_ndvi : ℚ) :
    StressPredictor.predict_stress model fi current_ndvi [] =
      { daily_predictions := []
        summary :=
          { overall_risk := "low"
            high_stress_days := 0
            average_stress_probability := none
            recommendation :=
              "LOW: Continue current irrigation schedule. Monitor conditions."
            confidence := none }
        feature_importance := fi } := rfl
